/-
  Verification of the FinRAG ingestion / aggregation pipeline
  (fetch_news_articles.py, fetch_stock_data.py,
   stock_prices_transformed_cloud_function.py, Flask_Server.py)
  against its natural-language specification.

  The Python scripts are shallowly embedded: pure fragments become Lean
  functions, effectful fragments become functions returning an explicit
  event trace, external services (HTTP fetches, the object store, the
  Firebase realtime database) are passed in as explicit environment /
  state values.
-/
import Mathlib

namespace FinRAG

/-! ## Timestamps and strftime-style formatting

`datetime` values are embedded as a record of their calendar fields.
`strftime("%m")` etc. zero-pad to two digits, `%Y` prints the year. -/

structure DateTime where
  year : Nat
  month : Nat
  day : Nat
  hour : Nat
  minute : Nat
  second : Nat
deriving DecidableEq, Repr

/-- `strftime` two-digit zero padded field (`%m`, `%d`, `%H`, `%M`, `%S`). -/
def pad2 (n : Nat) : String :=
  if n < 10 then "0" ++ toString n else toString n

/-! ## Partition key construction

`fetch_news_articles.py` lines 101-112: every path segment and the
filename seconds component come from the article's `published_utc`
timestamp.

`fetch_stock_data.py` lines 44-71 (`fetch_historical_data`): year, month
and day come from the record's own date, but hour, minute and second are
taken from `datetime.now()` at write time. -/

/-- Folder path built by `fetch_and_store_news` (line 111):
`{ticker}/{year}/Month={month}/Day={day}/Hour={hour}/Minute={minute}`,
all fields from the article's published timestamp. -/
def newsFolderName (ticker : String) (published : DateTime) : String :=
  ticker ++ "/" ++ toString published.year ++ "/Month=" ++ pad2 published.month ++
    "/Day=" ++ pad2 published.day ++ "/Hour=" ++ pad2 published.hour ++
    "/Minute=" ++ pad2 published.minute

/-- Filename built by `fetch_and_store_news` (line 112):
`{ticker}_{second}.json`, seconds from the published timestamp. -/
def newsFileName (ticker : String) (published : DateTime) : String :=
  ticker ++ "_" ++ pad2 published.second ++ ".json"

/-- Folder path built by `fetch_historical_data` (line 70):
`historical/{ticker}/{year}/Month={month}/Day={day}/Hour={hour}/Minute={minute}`;
year/month/day from the record date `date`, hour/minute from the
wall-clock `now` read at write time (lines 49-53). -/
def stockFolderName (ticker : String) (date : DateTime) (now : DateTime) : String :=
  "historical/" ++ ticker ++ "/" ++ toString date.year ++ "/Month=" ++ pad2 date.month ++
    "/Day=" ++ pad2 date.day ++ "/Hour=" ++ pad2 now.hour ++ "/Minute=" ++ pad2 now.minute

/-- Filename built by `fetch_historical_data` (line 71):
`{ticker}_{second}.json`, seconds from the wall clock. -/
def stockFileName (ticker : String) (now : DateTime) : String :=
  ticker ++ "_" ++ pad2 now.second ++ ".json"

/-! ## Deduplication gate

`fetch_news_articles.py` lines 86-91 keep a dictionary
`last_fetched_ids : ticker -> article id`; an article whose id equals the
stored one is skipped, otherwise the stored id is updated.  The spec
names this `DeduplicationGate.observe(source, record_id) -> {new, duplicate}`. -/

/-- The in-memory deduplication map (`last_fetched_ids`): association
list from source (ticker) to last-seen record id, with Python-dict
lookup/update semantics. -/
abbrev DedupMap := List (String × String)

/-- `last_fetched_ids.get(ticker)` (line 86). -/
def dedupGet : DedupMap → String → Option String
  | [], _ => Option.none
  | (k, v) :: rest, source => if k = source then some v else dedupGet rest source

/-- `last_fetched_ids[ticker] = article_id` (line 91). -/
def dedupSet (m : DedupMap) (source : String) (rid : String) : DedupMap :=
  match m with
  | [] => [(source, rid)]
  | (k, v) :: rest =>
      if k = source then (k, rid) :: rest else (k, v) :: dedupSet rest source rid

inductive ObserveResult
  | new
  | duplicate
deriving DecidableEq, Repr

/-- The deduplication gate's `observe` operation, exactly the inline
check of lines 86-91: `duplicate` (map unchanged, record skipped) when
the stored id for `source` equals `rid`, else `new` with the map
updated. -/
def observe (m : DedupMap) (source : String) (rid : String) : ObserveResult × DedupMap :=
  if dedupGet m source = some rid then (ObserveResult.duplicate, m)
  else (ObserveResult.new, dedupSet m source rid)

/-! ## Python values and JSON serialization

The values flowing through the pipeline: JSON-serializable scalars
(`str`, `int`, `float`, `bool`, `None`) and the one non-scalar the stock
script must defend against, a structured timestamp object (a pandas
`Timestamp`).  Floats carry their decimal representation as an
uninterpreted string (no claim computes with them).  Records
(`NormalizedRecord`s) are flat string-keyed mappings, as the spec's data
model requires, so `json.dumps` is embedded for scalars and one level of
dict — the only shapes the repository ever serializes. -/

inductive PyVal
  | str (s : String)
  | int (n : Int)
  | float (repr : String)
  | bool (b : Bool)
  | none
  | timestamp (iso : String)
deriving DecidableEq, Repr

/-- `isinstance(v, (str, int, float, bool, type(None)))`
(fetch_stock_data.py line 60). -/
def isSerializableScalar : PyVal → Bool
  | PyVal.str _ => true
  | PyVal.int _ => true
  | PyVal.float _ => true
  | PyVal.bool _ => true
  | PyVal.none => true
  | PyVal.timestamp _ => false

/-- Python `str(v)` for the value kinds above (`str()` of a pandas
`Timestamp` is its ISO-style rendering). -/
def pyStr : PyVal → String
  | PyVal.str s => s
  | PyVal.int n => toString n
  | PyVal.float r => r
  | PyVal.bool b => if b then "True" else "False"
  | PyVal.none => "None"
  | PyVal.timestamp iso => iso

/-- JSON string escaping as `json.dumps` performs it for the characters
that can occur here (backslash, quote, newline, tab, carriage return). -/
def jsonEscapeChar (c : Char) : String :=
  if c = '\\' then "\\\\"
  else if c = '"' then "\\\""
  else if c = '\n' then "\\n"
  else if c = '\t' then "\\t"
  else if c = '\r' then "\\r"
  else String.singleton c

def jsonEscape (s : String) : String :=
  String.join (s.data.map jsonEscapeChar)

/-- `json.dumps` on a scalar; raises `TypeError` (modelled as `.error`)
on a non-serializable object such as a pandas `Timestamp`. -/
def dumpScalar : PyVal → Except Unit String
  | PyVal.str s => Except.ok ("\"" ++ jsonEscape s ++ "\"")
  | PyVal.int n => Except.ok (toString n)
  | PyVal.float r => Except.ok r
  | PyVal.bool b => Except.ok (if b then "true" else "false")
  | PyVal.none => Except.ok "null"
  | PyVal.timestamp _ => Except.error ()

/-- A top-level value handed to `json.dumps` in this repository: either
a single value or a flat string-keyed dict (a `NormalizedRecord`). -/
inductive PyTop
  | val (v : PyVal)
  | dict (fields : List (String × PyVal))
deriving DecidableEq, Repr

/-- One `"key": value` member of a JSON object. -/
def dumpField (f : String × PyVal) : Except Unit String :=
  (dumpScalar f.2).map (fun s => "\"" ++ jsonEscape f.1 ++ "\": " ++ s)

/-- The members of a JSON object, serialized in order; the first
`TypeError` propagates. -/
def dumpFields : List (String × PyVal) → Except Unit (List String)
  | [] => Except.ok []
  | f :: rest =>
      match dumpField f, dumpFields rest with
      | Except.ok s, Except.ok parts => Except.ok (s :: parts)
      | Except.error e, _ => Except.error e
      | _, Except.error e => Except.error e

/-- `json.dumps` with its default separators (`", "`, `": "`). -/
def json_dumps : PyTop → Except Unit String
  | PyTop.val v => dumpScalar v
  | PyTop.dict fields =>
      (dumpFields fields).map (fun parts => "\x7b" ++ ", ".intercalate parts ++ "\x7d")

/-! ## Object store writer

`upload_to_gcs(data, folder_name, filename)` (both fetch scripts):
serializes `data` with `json.dumps` and writes the resulting payload at
`{folder_name}/{filename}` with content type `application/json`. -/

structure StoredObject where
  path : String
  payload : String
  contentType : String
deriving DecidableEq, Repr

/-- `upload_to_gcs` (fetch_stock_data.py lines 26-34,
fetch_news_articles.py lines 51-59): the stored payload is
`json.dumps(data)`.  `json.dumps` has no try/except here; the `.error`
case would propagate, but every caller passes a serializable value. -/
def upload_to_gcs (data : PyTop) (folder_name filename : String) : Except Unit StoredObject :=
  (json_dumps data).map (fun s =>
    { path := folder_name ++ "/" ++ filename, payload := s, contentType := "application/json" })

/-! ## Stock record normalization (`fetch_historical_data`, lines 56-74)

For each row: `day_data = row.to_dict()` plus a `Date` string, then the
coercion comprehension of line 60, then `day_json = json.dumps(day_data)`
inside try/except (skip on `TypeError`), then
`upload_to_gcs(day_json, folder_name, filename)` — note the argument is
the already-serialized *string*, which `upload_to_gcs` serializes again. -/

/-- The coercion comprehension (line 60):
`{str(k): (v if isinstance(v, (str,int,float,bool,NoneType)) else str(v)) for k, v in day_data.items()}`
(keys are already strings in the embedding, so `str(k)` is the identity). -/
def coerceRecord (day_data : List (String × PyVal)) : List (String × PyVal) :=
  day_data.map (fun kv =>
    (kv.1, if isSerializableScalar kv.2 then kv.2 else PyVal.str (pyStr kv.2)))

/-- The per-row store step of `fetch_historical_data` (lines 59-74):
coerce, serialize (skip the row on `TypeError`), then upload the JSON
*string* through `upload_to_gcs`.  Returns the stored object, or `none`
when the row was skipped. -/
def stockStoreRow (day_data : List (String × PyVal)) (ticker : String)
    (date now : DateTime) : Option StoredObject :=
  let coerced := coerceRecord day_data
  match json_dumps (PyTop.dict coerced) with
  | Except.error _ => Option.none
  | Except.ok day_json =>
      match upload_to_gcs (PyTop.val (PyVal.str day_json))
          (stockFolderName ticker date now) (stockFileName ticker now) with
      | Except.ok obj => Option.some obj
      | Except.error _ => Option.none

/-! ## Columnar aggregation cloud function
(`stock_prices_transformed_cloud_function.py`)

The external preprocessed bucket is passed in as a `GcsStore`: a listing
function (blob names under a prefix) and the rows contained in each
parquet file.  Effects (listings, loads, corpus writes) are collected in
an explicit trace.  Floats (High/Low/Close/Open/Volume and the `.6f`
rendering of `Daily Return`) are abstracted by the strings they render
to, since no claim computes with their numeric values. -/

/-- One row of the concatenated DataFrame: the `Date` timestamp plus the
rendered price/volume/return fields and the `Ticker` column added by
`load_parquet_from_gcs`. -/
structure Row where
  date : DateTime
  high : String
  low : String
  close : String
  open_ : String
  volume : String
  dailyReturn : String
  ticker : String
deriving DecidableEq, Repr

/-- The external preprocessed bucket. -/
structure GcsStore where
  blobs : String → List String
  fileRows : String → List Row

/-- Python `name.endswith(suffix)`. -/
def pyEndsWith (name suffix : String) : Bool :=
  suffix.data.isSuffixOf name.data

/-- `list_parquet_files_for_month` (lines 16-20): list blob names under
`{ticker}/year={year}/month={month:02d}/` and keep the `.parquet` ones. -/
def list_parquet_files_for_month (store : GcsStore) (ticker : String) (year : Int)
    (month : Nat) : List String :=
  let prefix_ := ticker ++ "/year=" ++ toString year ++ "/month=" ++ pad2 month ++ "/"
  (store.blobs prefix_).filter (fun name => pyEndsWith name ".parquet")

/-- `load_parquet_from_gcs` (lines 22-37): load each parquet file, add
the `Ticker` column, concatenate.  (Only called on a nonempty file list;
`pd.concat` on an empty list would raise.) -/
def load_parquet_from_gcs (store : GcsStore) (parquet_files : List String)
    (ticker : String) : List Row :=
  ((parquet_files.map store.fileRows).map (fun rows =>
    rows.map (fun r => { r with ticker := ticker }))).flatten

/-- `row['Date'].strftime('%Y-%m-%d')` (line 45). -/
def dateYMD (d : DateTime) : String :=
  toString d.year ++ "-" ++ pad2 d.month ++ "-" ++ pad2 d.day

/-- One line of the text summary (lines 53-58); `r.dailyReturn` stands
for the `{daily_return:.6f}` rendering. -/
def rowLine (company_name : String) (r : Row) : String :=
  "On " ++ dateYMD r.date ++ ", " ++ company_name ++ " company's stock made a high and low of " ++
    r.high ++ "$ and " ++ r.low ++ "$, its closing and opening market prices were " ++
    r.close ++ "$ and " ++ r.open_ ++ "$ with an overall volume of " ++ r.volume ++
    " shares traded and a return of " ++ r.dailyReturn ++ "% on daily basis."

/-- `generate_text_from_dataframe` (lines 39-60): one summary line per
row, joined with newlines. -/
def generate_text_from_dataframe (df : List Row) (company_name : String) : String :=
  "\n".intercalate (df.map (rowLine company_name))

/-- Destination path of `save_text_to_gcs` (lines 62-74):
`{ticker}/year={year}/month={month:02d}/{ticker}_{year}{month:02d}.txt`. -/
def saveTextPath (ticker : String) (year : Int) (month : Nat) : String :=
  ticker ++ "/year=" ++ toString year ++ "/month=" ++ pad2 month ++ "/" ++
    ticker ++ "_" ++ toString year ++ pad2 month ++ ".txt"

/-- Observable effects of one `process_request` run against external
storage. -/
inductive CfEffect
  | listed (ticker : String) (year : Int) (month : Nat)
  | loaded (files : List String)
  | wrote (path : String) (text : String)
deriving DecidableEq, Repr

/-- The loop body of `process_request` for one (ticker, month)
(lines 102-119): list the parquet files; `continue` with no further
action when none exist, else load, generate the text summary and save it
(`company_name = ticker`, line 115).  `save_text_to_gcs` writes the text
unconditionally. -/
def processMonth (store : GcsStore) (ticker : String) (year : Int) (month : Nat) :
    List CfEffect :=
  let parquet_files := list_parquet_files_for_month store ticker year month
  CfEffect.listed ticker year month ::
    (if parquet_files = [] then []
     else
       let df := load_parquet_from_gcs store parquet_files ticker
       let text_summary := generate_text_from_dataframe df ticker
       [CfEffect.loaded parquet_files,
        CfEffect.wrote (saveTextPath ticker year month) text_summary])

/-- The parsed JSON body of the request; a missing key makes
`request_json.get(...)` return `None` (here `Option.none`). -/
structure ReqJson where
  tickers : Option (List String)
  year : Option PyVal
  months : Option (List Nat)

/-- Python `int(x)` on the result of `request_json.get('year')`:
`int(None)` raises `TypeError`, `int` of an `int` is itself, `int` of a
string parses or raises `ValueError`. -/
def pyIntOf : Option PyVal → Except String Int
  | Option.none =>
      Except.error "int() argument must be a string, a bytes-like object or a real number, not 'NoneType'"
  | Option.some (PyVal.int n) => Except.ok n
  | Option.some (PyVal.str s) =>
      match s.toInt? with
      | Option.some n => Except.ok n
      | Option.none => Except.error ("invalid literal for int() with base 10: '" ++ s ++ "'")
  | Option.some v => Except.error ("int() argument cannot be '" ++ pyStr v ++ "'")

/-- `process_request` (lines 80-126).  Results are `(body, status)`
pairs as the code returns them, paired with the trace of storage
effects.  `int(request_json.get('year'))` runs *before* the
missing-parameter check; an exception there is caught by the outer
handler (lines 124-126) which returns status 500 — and no storage effect
has happened at that point.  `months` is typed as a list in the
embedding, so the `isinstance(months, list)` guard (line 96) always
passes. -/
def process_request (req : ReqJson) (store : GcsStore) :
    (String × Nat) × List CfEffect :=
  let tickers := req.tickers.getD []
  match pyIntOf req.year with
  | Except.error e => (("Error processing request: " ++ e, 500), [])
  | Except.ok year =>
      let months := req.months.getD []
      if tickers = [] ∨ year = 0 ∨ months = [] then
        (("Missing required parameters: 'tickers', 'year', 'months'", 400), [])
      else
        (("Processing complete. Check the transformed bucket for results.", 200),
         (tickers.map (fun t => (months.map (processMonth store t year)).flatten)).flatten)

/-! ## Flask server: alert counter and webhook (`Flask_Server.py`)

The Firebase realtime database node `/incorrect_response_counter` is
embedded as a map from child name to stored integer.  `os.getenv`
returns a string or `None`; the code compares the integer `new_count`
against that value directly, and in Python 3 `int > str` and
`int > NoneType` both raise `TypeError`. -/

def FirebaseState := String → Option Int

/-- Environment variables read by the server. -/
structure ServerEnv where
  retrainingThreshold : Option String
  slackWebhookUrl : Option String

/-- Python 3 comparison `new_count > os.getenv("RETRAINING_THRESHOLD")`
(line 146): the right operand is a `str` (or `None` when the variable is
unset); either way the comparison raises `TypeError`. -/
def pyGtIntEnv (_n : Int) (threshold : Option String) : Except String Bool :=
  match threshold with
  | Option.some _ =>
      Except.error "'>' not supported between instances of 'int' and 'str'"
  | Option.none =>
      Except.error "'>' not supported between instances of 'int' and 'NoneType'"

inductive AlertEvent
  | slackWebhook (url : Option String)
deriving DecidableEq, Repr

/-- `update_alert_counter` (lines 141-151): read `count` (default 0),
add the increment, fire the Slack webhook if the new count exceeds the
threshold, then write `count` back.  Any exception is caught (line 149):
logged and swallowed, leaving the database untouched.  The returned
`Bool` records whether the except branch ran. -/
def update_alert_counter (st : FirebaseState) (env : ServerEnv) (increment_factor : Int) :
    FirebaseState × List AlertEvent × Bool :=
  let current_count := (st "count").getD 0
  let new_count := current_count + increment_factor
  match pyGtIntEnv new_count env.retrainingThreshold with
  | Except.error _ => (st, [], true)
  | Except.ok b =>
      let events := if b then [AlertEvent.slackWebhook env.slackWebhookUrl] else []
      (fun key => if key = "count" then Option.some new_count else st key, events, false)

/-- The `/increment_counter` route (lines 223-233): update the counter
via `update_alert_counter`, then read the response value from the
`counter` child — a different child than the `count` one the update
writes.  Returns the new database state, the webhook events and the
value placed in the JSON response. -/
def increment_counter (st : FirebaseState) (env : ServerEnv) (increment_by : Int) :
    FirebaseState × List AlertEvent × Option Int :=
  let upd := update_alert_counter st env increment_by
  let counter_value := upd.1 "counter"
  (upd.1, upd.2.1, counter_value)

/-- The database state after a sequence of `/increment_counter` calls. -/
def runIncrements (st : FirebaseState) (env : ServerEnv) (incs : List Int) : FirebaseState :=
  incs.foldl (fun s i => (increment_counter s env i).1) st

/-! ## News fetch scheduler (`fetch_news_articles.py`)

`fetch_and_store_news` walks the 15-ticker list in batches of 5
(line 67, `range(0, len(tickers), batch_size)`), fetches the latest
article per ticker, runs it through the dedup gate, scrapes its content
and uploads it, then sleeps 60 seconds after each batch (line 132); the
`__main__` loop reruns the whole pass and sleeps 24 hours (lines
135-139).  Upstream responses and the scraper are an explicit
environment; writes and sleeps appear in an event trace. -/

/-- One element of `data["results"]`: the fields the script reads.
`published` is the `datetime.strptime(published_utc, "%Y-%m-%dT%H:%M:%SZ")`
parse of the carried `publishedUtc` string. -/
structure Article where
  id : String
  title : String
  description : String
  article_url : String
  publishedUtc : String
  published : DateTime
deriving DecidableEq, Repr

/-- The upstream world: `newsResp t` is the polygon response for ticker
`t` (`Except.error code` for a non-200 status, otherwise the `results`
list), and `content url` is the scraped text from `get_article_content`
(`none` on a non-200 page or a request exception, lines 34-49). -/
structure NewsEnv where
  newsResp : String → Except Nat (List Article)
  content : String → Option String

inductive NewsEvent
  | dedupUpdate (ticker : String) (rid : String)
  | contentFetch (url : String)
  | upload (obj : StoredObject)
  | sleep (seconds : Nat)
deriving DecidableEq, Repr

/-- The `article_data` dict uploaded for a stored article (lines
115-121). -/
def articleData (ticker : String) (a : Article) (content : String) : PyTop :=
  PyTop.dict
    [("ticker", PyVal.str ticker),
     ("title", PyVal.str a.title),
     ("summary", PyVal.str a.description),
     ("content", PyVal.str content),
     ("published_utc", PyVal.str a.publishedUtc)]

/-- Processing of one ticker inside a batch (lines 70-128): fetch the
news response (skip the ticker on a non-200 status or an empty `results`
list), skip when the dedup map already holds the article id, otherwise
record the id, scrape the content, and upload the article data under
its published-timestamp partition.  The upload is guarded by line 99's
`if content:` — Python truthiness, falsy both for `None` (scrape
failure) and for the empty string (a 200 page with no `<p>` text), so
in either of those cases no write is attempted.  Returns the updated
map and the event trace. -/
def processTicker (env : NewsEnv) (m : DedupMap) (ticker : String) :
    DedupMap × List NewsEvent :=
  match env.newsResp ticker with
  | Except.error _ => (m, [])
  | Except.ok [] => (m, [])
  | Except.ok (article :: _) =>
      if dedupGet m ticker = some article.id then (m, [])
      else
        let m' := dedupSet m ticker article.id
        match env.content article.article_url with
        | Option.none =>
            (m', [NewsEvent.dedupUpdate ticker article.id,
                  NewsEvent.contentFetch article.article_url])
        | Option.some content =>
            if content = "" then
              (m', [NewsEvent.dedupUpdate ticker article.id,
                    NewsEvent.contentFetch article.article_url])
            else
              match upload_to_gcs (articleData ticker article content)
                  (newsFolderName ticker article.published)
                  (newsFileName ticker article.published) with
              | Except.ok obj =>
                  (m', [NewsEvent.dedupUpdate ticker article.id,
                        NewsEvent.contentFetch article.article_url,
                        NewsEvent.upload obj])
              | Except.error _ =>
                  (m', [NewsEvent.dedupUpdate ticker article.id,
                        NewsEvent.contentFetch article.article_url])

/-- The inner `for ticker in batch_tickers` loop. -/
def processBatch (env : NewsEnv) (m : DedupMap) : List String → DedupMap × List NewsEvent
  | [] => (m, [])
  | t :: ts =>
      let r1 := processTicker env m t
      let r2 := processBatch env r1.1 ts
      (r2.1, r1.2 ++ r2.2)

/-- The outer batch loop of `fetch_and_store_news` (lines 67-132):
`for i in range(0, len(tickers), 5)` — process five tickers, sleep 60
seconds, continue with the rest. -/
def fetchLoop (env : NewsEnv) (m : DedupMap) : List String → DedupMap × List NewsEvent
  | [] => (m, [])
  | t :: rest =>
      let batch := t :: rest.take 4
      let r1 := processBatch env m batch
      let r2 := fetchLoop env r1.1 (rest.drop 4)
      (r2.1, r1.2 ++ NewsEvent.sleep 60 :: r2.2)
termination_by ts => ts.length
decreasing_by
  simp only [List.length_drop, List.length_cons]
  omega

/-- The module-level ticker list (lines 21-25). -/
def newsTickers : List String :=
  ["AAPL", "MSFT", "GOOGL", "AMZN", "TSLA",
   "META", "NVDA", "BRK.B", "V", "JNJ",
   "WMT", "JPM", "PG", "MA", "UNH"]

/-- `fetch_and_store_news` applied to the module ticker list, starting
from dedup state `m` (`last_fetched_ids`). -/
def fetch_and_store_news (env : NewsEnv) (m : DedupMap) : DedupMap × List NewsEvent :=
  fetchLoop env m newsTickers

/-- One iteration of the `__main__` loop (lines 136-139): a full pass
over the ticker list followed by the 24-hour sleep. -/
def mainCycle (env : NewsEnv) (m : DedupMap) : DedupMap × List NewsEvent :=
  let r := fetch_and_store_news env m
  (r.1, r.2 ++ [NewsEvent.sleep 86400])

/-- `n` iterations of the (unbounded) `while True` loop. -/
def runCycles (env : NewsEnv) (m : DedupMap) : Nat → DedupMap × List NewsEvent
  | 0 => (m, [])
  | n + 1 =>
      let r1 := mainCycle env m
      let r2 := runCycles env r1.1 n
      (r2.1, r1.2 ++ r2.2)

/-- The batches `range(0, len(ts), 5)` carves `ts` into. -/
def chunks5 : List String → List (List String)
  | [] => []
  | t :: rest => (t :: rest.take 4) :: chunks5 (rest.drop 4)
termination_by ts => ts.length
decreasing_by
  simp only [List.length_drop, List.length_cons]
  omega

/-- The article id the environment serves for a ticker (first element of
`results`). -/
def envArticleId (env : NewsEnv) (t : String) : String :=
  match env.newsResp t with
  | Except.ok (a :: _) => a.id
  | _ => ""

/-- Dedup state after observing, in order, the served article id of each
ticker in `ts`. -/
def insertIds (env : NewsEnv) (m : DedupMap) (ts : List String) : DedupMap :=
  ts.foldl (fun acc t => dedupSet acc t (envArticleId env t)) m

/-- Events a ticker contributes when the dedup map holds no id for it
yet (the served article is fresh); the upload appears only when the
scraped content is truthy (non-`None` and non-empty), mirroring
`processTicker`. -/
def tickerFreshEvents (env : NewsEnv) (t : String) : List NewsEvent :=
  match env.newsResp t with
  | Except.ok (a :: _) =>
      match env.content a.article_url with
      | Option.some c =>
          if c = "" then
            [NewsEvent.dedupUpdate t a.id,
             NewsEvent.contentFetch a.article_url]
          else
            match upload_to_gcs (articleData t a c)
                (newsFolderName t a.published) (newsFileName t a.published) with
            | Except.ok obj =>
                [NewsEvent.dedupUpdate t a.id,
                 NewsEvent.contentFetch a.article_url,
                 NewsEvent.upload obj]
            | Except.error _ =>
                [NewsEvent.dedupUpdate t a.id,
                 NewsEvent.contentFetch a.article_url]
      | Option.none =>
          [NewsEvent.dedupUpdate t a.id,
           NewsEvent.contentFetch a.article_url]
  | _ => []

/-- The environment serves ticker `t` a non-empty 200 response and the
article's page scrapes to non-empty text, so that line 99's
`if content:` passes. -/
def FetchSucceeds (env : NewsEnv) (t : String) : Prop :=
  ∃ a rest c, env.newsResp t = Except.ok (a :: rest) ∧
    env.content a.article_url = Option.some c ∧ c ≠ ""

/-! ## Concrete sample inputs used to evaluate the theorems -/

/-- A concrete upstream article for ticker `t`. -/
def sampleArticle (t : String) : Article :=
  { id := "art-" ++ t, title := "Title", description := "Desc",
    article_url := "https://news.example/" ++ t,
    publishedUtc := "2024-10-05T14:30:09Z",
    published := ⟨2024, 10, 5, 14, 30, 9⟩ }

/-- An environment where every ticker has a fresh article and every
scrape succeeds. -/
def successEnv : NewsEnv :=
  { newsResp := fun t => Except.ok [sampleArticle t],
    content := fun _ => Option.some "Body text" }

/-- An environment where every fetch succeeds but every content scrape
fails (`get_article_content` returns `None`). -/
def scrapeFailEnv : NewsEnv :=
  { newsResp := fun t => Except.ok [sampleArticle t],
    content := fun _ => Option.none }

/-- A preprocessed bucket whose every listing holds one parquet file,
and every parquet file holds zero rows. -/
def zeroRowStore : GcsStore :=
  { blobs := fun _ => ["AAPL/year=2024/month=10/part-0.parquet"],
    fileRows := fun _ => [] }

/-- A preprocessed bucket with no objects at all. -/
def emptyStore : GcsStore :=
  { blobs := fun _ => [], fileRows := fun _ => [] }

/-- A concrete Firebase counter state. -/
def sampleFirebase : FirebaseState :=
  fun key => if key = "counter" then some 42 else Option.none

/-- A concrete server environment (threshold variable set to the string
`"3"`). -/
def sampleServerEnv : ServerEnv :=
  { retrainingThreshold := some "3",
    slackWebhookUrl := some "https://hooks.example/T0/B0/X" }

/-! # Theorems -/

/-! ## Deduplication map lemmas -/

theorem dedupGet_nil (s : String) : dedupGet [] s = Option.none := rfl

theorem dedupGet_dedupSet (m : DedupMap) (s r s' : String) :
    dedupGet (dedupSet m s r) s' = if s' = s then some r else dedupGet m s' := by
  induction m with
  | nil =>
      by_cases h : s' = s
      · subst h; simp [dedupSet, dedupGet]
      · have h2 : ¬ s = s' := fun hh => h hh.symm
        simp [dedupSet, dedupGet, h, h2]
  | cons kv rest ih =>
      obtain ⟨k, v⟩ := kv
      by_cases hk : k = s
      · subst hk
        by_cases h : s' = k
        · subst h; simp [dedupSet, dedupGet]
        · have h2 : ¬ k = s' := fun hh => h hh.symm
          simp [dedupSet, dedupGet, h, h2]
      · by_cases h : k = s'
        · have hne : ¬ s' = s := fun h2 => hk (h.trans h2)
          simp [dedupSet, dedupGet, hk, h, hne]
        · simp [dedupSet, dedupGet, hk, h, ih]

/-! ## C1: the deduplication gate protocol -/

/-- C1, counterexample: the claim quantifies over *every* starting state
of the deduplication map, but when the map already stores id `a1` for
source `AAPL`, the first of two successive `observe("AAPL", "a1")` calls
already returns `duplicate`, not `new`. -/
theorem observe_twice_not_new_from_every_state :
    (observe [("AAPL", "a1")] "AAPL" "a1").1 ≠ ObserveResult.new ∧
    observe [("AAPL", "a1")] "AAPL" "a1" = (ObserveResult.duplicate, [("AAPL", "a1")]) := by
  constructor
  · decide
  · decide

/-- C1 (amended): from any state whose stored id for source `S` is not
`I`, `observe(S, I)` returns `new` and stores `I`; a second
`observe(S, I)` returns `duplicate` and performs no further action (map
unchanged); a subsequent `observe(S, I')` with `I' ≠ I` returns `new`
again and stores `I'` for `S`. -/
theorem observe_protocol_from_fresh_state (m : DedupMap) (S I : String)
    (h : dedupGet m S ≠ some I) :
    (observe m S I).1 = ObserveResult.new ∧
    dedupGet (observe m S I).2 S = some I ∧
    observe (observe m S I).2 S I = (ObserveResult.duplicate, (observe m S I).2) ∧
    ∀ I', I' ≠ I →
      (observe (observe m S I).2 S I').1 = ObserveResult.new ∧
      dedupGet (observe (observe m S I).2 S I').2 S = some I' := by
  have h1 : observe m S I = (ObserveResult.new, dedupSet m S I) := by
    simp [observe, h]
  have hget : dedupGet (dedupSet m S I) S = some I := by
    rw [dedupGet_dedupSet]; simp
  refine ⟨by rw [h1], by rw [h1]; exact hget, ?_, ?_⟩
  · rw [h1]
    simp [observe, hget]
  · intro I' hI'
    rw [h1]
    have hne : ¬ dedupGet (dedupSet m S I) S = some I' := by
      rw [hget]; simp; exact fun h2 => hI' h2.symm
    constructor
    · simp [observe, hne]
    · simp only [observe, if_neg hne]
      rw [dedupGet_dedupSet]; simp

/-- Evaluation of the C1 protocol at a concrete source, id pair and the
empty starting map. -/
theorem observe_protocol_from_fresh_state_witness :
    (observe ([] : DedupMap) "AAPL" "a1").1 = ObserveResult.new ∧
    dedupGet (observe ([] : DedupMap) "AAPL" "a1").2 "AAPL" = some "a1" ∧
    observe (observe ([] : DedupMap) "AAPL" "a1").2 "AAPL" "a1" =
      (ObserveResult.duplicate, (observe ([] : DedupMap) "AAPL" "a1").2) ∧
    (observe (observe ([] : DedupMap) "AAPL" "a1").2 "AAPL" "a2").1 = ObserveResult.new := by
  have h := observe_protocol_from_fresh_state ([] : DedupMap) "AAPL" "a1" (by decide)
  exact ⟨h.1, h.2.1, h.2.2.1, (h.2.2.2 "a2" (by decide)).1⟩

/-! ## C2: partition key determinism and padding -/

/-- C2, counterexample: in the stock pipeline the Hour and Minute *path
segments* (not merely the seconds filename suffix) come from the wall
clock: the same record timestamp written at two different wall-clock
times yields different path segments, so the key is not a function of
the record timestamp and the source alone. -/
theorem stock_partition_varies_with_wall_clock :
    stockFolderName "AAPL" ⟨2024, 1, 2, 0, 0, 0⟩ ⟨2024, 10, 5, 10, 30, 0⟩ ≠
      stockFolderName "AAPL" ⟨2024, 1, 2, 0, 0, 0⟩ ⟨2024, 10, 5, 11, 45, 0⟩ := by
  decide

/-- C2 (amended): the news pipeline's partition key (all path segments
and the filename) is a deterministic function of the source and the
article's published timestamp alone; the stock pipeline's path is
deterministic in the record timestamp only for the year/Month/Day
segments — its Hour/Minute segments depend (only) on the wall-clock
hour and minute and its filename (only) on the wall-clock second; the
Month/Day/Hour/Minute segments are always two-digit zero-padded. -/
theorem partition_key_determinism_amended :
    (∀ (ticker : String) (a a' : Article), a.published = a'.published →
        newsFolderName ticker a.published = newsFolderName ticker a'.published ∧
        newsFileName ticker a.published = newsFileName ticker a'.published) ∧
    (∀ (ticker : String) (date now now' : DateTime),
        now.hour = now'.hour → now.minute = now'.minute →
        stockFolderName ticker date now = stockFolderName ticker date now') ∧
    (∀ (ticker : String) (now now' : DateTime),
        now.second = now'.second → stockFileName ticker now = stockFileName ticker now') ∧
    (∀ n : Nat, n < 100 → (pad2 n).length = 2) := by
  refine ⟨?_, ?_, ?_, ?_⟩
  · intro ticker a a' h
    rw [h]
    exact ⟨rfl, rfl⟩
  · intro ticker date now now' hh hm
    unfold stockFolderName
    rw [hh, hm]
  · intro ticker now now' hs
    unfold stockFileName
    rw [hs]
  · decide

/-- Evaluation of the amended C2 statement at concrete inputs: two
wall-clock readings sharing hour and minute (but not day or second)
give the same stock folder, and a two-digit padding sample. -/
theorem partition_key_determinism_amended_witness :
    stockFolderName "AAPL" ⟨2024, 1, 2, 0, 0, 0⟩ ⟨2024, 10, 5, 14, 30, 9⟩ =
      stockFolderName "AAPL" ⟨2024, 1, 2, 0, 0, 0⟩ ⟨2025, 1, 1, 14, 30, 45⟩ ∧
    newsFolderName "MSFT" (sampleArticle "MSFT").published =
      newsFolderName "MSFT" (sampleArticle "MSFT").published ∧
    (pad2 7).length = 2 := by
  have h := partition_key_determinism_amended
  exact ⟨h.2.1 "AAPL" ⟨2024, 1, 2, 0, 0, 0⟩ ⟨2024, 10, 5, 14, 30, 9⟩ ⟨2025, 1, 1, 14, 30, 45⟩ rfl rfl,
         (h.1 "MSFT" (sampleArticle "MSFT") (sampleArticle "MSFT") rfl).1,
         h.2.2.2 7 (by decide)⟩

/-! ## C3: the stored stock payload is serialized twice -/

/-- C3, failing input: `fetch_historical_data` passes the already
serialized string `day_json` to `upload_to_gcs`, which serializes it
again, so the stored payload is the JSON encoding of a JSON *string* —
it begins with a quote, not a brace, and a single deserialization yields
a string, not a mapping equal to the original record. -/
theorem stock_stored_payload_double_serialized :
    stockStoreRow [("High", PyVal.float "1.5"), ("Date", PyVal.str "2024-01-02")]
        "AAPL" ⟨2024, 1, 2, 0, 0, 0⟩ ⟨2024, 10, 5, 14, 30, 9⟩ =
      some { path := "historical/AAPL/2024/Month=01/Day=02/Hour=14/Minute=30/AAPL_09.json",
             payload := "\"\x7b\\\"High\\\": 1.5, \\\"Date\\\": \\\"2024-01-02\\\"\x7d\"",
             contentType := "application/json" } ∧
    json_dumps (PyTop.dict (coerceRecord
        [("High", PyVal.float "1.5"), ("Date", PyVal.str "2024-01-02")])) =
      Except.ok "\x7b\"High\": 1.5, \"Date\": \"2024-01-02\"\x7d" ∧
    "\"\x7b\\\"High\\\": 1.5, \\\"Date\\\": \\\"2024-01-02\\\"\x7d\"" =
      "\"" ++ jsonEscape "\x7b\"High\": 1.5, \"Date\": \"2024-01-02\"\x7d" ++ "\"" ∧
    "\"\x7b\\\"High\\\": 1.5, \\\"Date\\\": \\\"2024-01-02\\\"\x7d\"" ≠
      "\x7b\"High\": 1.5, \"Date\": \"2024-01-02\"\x7d" := by
  refine ⟨by decide, rfl, by decide, by decide⟩

/-! ## C4: missing request parameters at the aggregation entry point -/

/-- C4, failing input: a request lacking `year` (but carrying `tickers`
and `months`) hits `int(request_json.get('year'))` on line 88 *before*
the missing-parameter check of line 92 reaches it; the `TypeError` is
caught by the generic handler (lines 124-126), which answers 500, not
the 400 client error the claim requires.  No storage effect occurs
(that half of the claim holds).  A request missing `tickers` or
`months` does reach the check and is answered 400 with no effects. -/
theorem missing_year_returns_500 (store : GcsStore) :
    process_request
        { tickers := some ["AAPL"], year := Option.none, months := some [10] } store =
      (("Error processing request: int() argument must be a string, a bytes-like object or a real number, not 'NoneType'",
        500), []) ∧
    process_request
        { tickers := Option.none, year := some (PyVal.int 2024), months := some [10] } store =
      (("Missing required parameters: 'tickers', 'year', 'months'", 400), []) ∧
    process_request
        { tickers := some ["AAPL"], year := some (PyVal.int 2024), months := Option.none } store =
      (("Missing required parameters: 'tickers', 'year', 'months'", 400), []) := by
  exact ⟨rfl, rfl, rfl⟩

/-! ## C5: empty datasets and corpus writes -/

/-- C5, counterexample: the code guards on an empty *file listing*
(line 107), not an empty *dataset*.  A (source, year, month) whose
listing holds one parquet file with zero rows has an empty tabular
dataset, yet the run writes a corpus object whose text is the empty
string — exactly the empty file the claim rules out. -/
theorem empty_dataset_empty_file_written :
    processMonth zeroRowStore "AAPL" 2024 10 =
      [CfEffect.listed "AAPL" 2024 10,
       CfEffect.loaded ["AAPL/year=2024/month=10/part-0.parquet"],
       CfEffect.wrote "AAPL/year=2024/month=10/AAPL_202410.txt" ""] := by
  decide

/-- C5 (amended): when the parquet file *listing* for a
(source, year, month) is empty, no load and no corpus write occur for it
(the iteration only records the listing); an empty dataset arising from
a nonempty listing of zero-row files does produce a write, of an empty
text object. -/
theorem no_write_when_listing_empty (store : GcsStore) (ticker : String)
    (year : Int) (month : Nat)
    (h : list_parquet_files_for_month store ticker year month = []) :
    processMonth store ticker year month = [CfEffect.listed ticker year month] ∧
    ∀ p t, CfEffect.wrote p t ∉ processMonth store ticker year month := by
  have h1 : processMonth store ticker year month = [CfEffect.listed ticker year month] := by
    unfold processMonth
    rw [h]
    simp
  refine ⟨h1, ?_⟩
  intro p t
  rw [h1]
  simp

/-- Evaluation of the amended C5 statement on a bucket with no objects. -/
theorem no_write_when_listing_empty_witness :
    processMonth emptyStore "AAPL" 2024 10 = [CfEffect.listed "AAPL" 2024 10] ∧
    ∀ p t, CfEffect.wrote p t ∉ processMonth emptyStore "AAPL" 2024 10 :=
  no_write_when_listing_empty emptyStore "AAPL" 2024 10 rfl

/-! ## C6: the coercion step makes every field serializable -/

theorem dumpScalar_ok_of_scalar (v : PyVal) (h : isSerializableScalar v = true) :
    ∃ s, dumpScalar v = Except.ok s := by
  cases v with
  | str s => exact ⟨_, rfl⟩
  | int n => exact ⟨_, rfl⟩
  | float r => exact ⟨_, rfl⟩
  | bool b => exact ⟨_, rfl⟩
  | none => exact ⟨_, rfl⟩
  | timestamp iso => simp [isSerializableScalar] at h

theorem dumpFields_ok (l : List (String × PyVal))
    (h : ∀ f ∈ l, isSerializableScalar f.2 = true) :
    ∃ parts, dumpFields l = Except.ok parts := by
  induction l with
  | nil => exact ⟨[], rfl⟩
  | cons f rest ih =>
      obtain ⟨s, hs⟩ := dumpScalar_ok_of_scalar f.2 (h f (List.mem_cons_self f rest))
      obtain ⟨parts, hp⟩ := ih (fun g hg => h g (List.mem_cons_of_mem f hg))
      refine ⟨("\"" ++ jsonEscape f.1 ++ "\": " ++ s) :: parts, ?_⟩
      simp [dumpFields, dumpField, hs, hp, Except.map]

theorem coerceRecord_all_scalar (day_data : List (String × PyVal)) :
    ∀ kv ∈ coerceRecord day_data, isSerializableScalar kv.2 = true := by
  intro kv hkv
  rw [coerceRecord, List.mem_map] at hkv
  obtain ⟨a, _, rfl⟩ := hkv
  obtain ⟨k, v⟩ := a
  cases v <;> simp [isSerializableScalar]

/-- C6: after the coercion comprehension of `fetch_historical_data`
(line 60) every field value is a serializable scalar — non-scalars have
been replaced by their `str()` representation — so `json.dumps` on the
coerced record always succeeds, and the `except TypeError` branch
(lines 65-67) is unreachable: the per-row store step always produces a
stored object. -/
theorem coerced_record_always_serializable (day_data : List (String × PyVal)) :
    (∀ kv ∈ coerceRecord day_data, isSerializableScalar kv.2 = true) ∧
    (∃ s, json_dumps (PyTop.dict (coerceRecord day_data)) = Except.ok s) ∧
    (∀ (ticker : String) (date now : DateTime),
        (stockStoreRow day_data ticker date now).isSome = true) := by
  have h1 := coerceRecord_all_scalar day_data
  obtain ⟨parts, hp⟩ := dumpFields_ok _ h1
  have hdump : json_dumps (PyTop.dict (coerceRecord day_data)) =
      Except.ok ("\x7b" ++ ", ".intercalate parts ++ "\x7d") := by
    simp [json_dumps, hp, Except.map]
  refine ⟨h1, ⟨_, hdump⟩, ?_⟩
  intro ticker date now
  simp only [stockStoreRow]
  rw [hdump]
  simp [upload_to_gcs, json_dumps, dumpScalar, Except.map]

/-- Evaluation of C6 on a record whose `Date` field is a structured
(non-serializable) pandas timestamp. -/
theorem coerced_record_always_serializable_witness :
    (stockStoreRow [("Date", PyVal.timestamp "2024-01-02 00:00:00"), ("High", PyVal.float "1.5")]
        "AAPL" ⟨2024, 1, 2, 0, 0, 0⟩ ⟨2024, 10, 5, 14, 30, 9⟩).isSome = true :=
  (coerced_record_always_serializable
      [("Date", PyVal.timestamp "2024-01-02 00:00:00"), ("High", PyVal.float "1.5")]).2.2
    "AAPL" ⟨2024, 1, 2, 0, 0, 0⟩ ⟨2024, 10, 5, 14, 30, 9⟩

/-! ## C8: the retraining-threshold webhook -/

/-- C8, failing input: `update_alert_counter` compares the integer
`new_count` with the raw result of `os.getenv("RETRAINING_THRESHOLD")` —
a string (or `None` when unset).  In Python 3 that comparison raises
`TypeError` unconditionally, the `except` branch swallows it, and so the
webhook never fires and the counter is never updated — for every state,
environment and increment, in particular when the incremented count
numerically exceeds the configured threshold. -/
theorem alert_threshold_comparison_always_raises (st : FirebaseState) (env : ServerEnv)
    (increment_factor : Int) :
    update_alert_counter st env increment_factor = (st, [], true) := by
  unfold update_alert_counter pyGtIntEnv
  obtain ⟨thr, url⟩ := env
  cases thr <;> rfl

/-! ## C10: the increment endpoint touches only `count`, answers `counter` -/

theorem update_alert_counter_frame (st : FirebaseState) (env : ServerEnv) (i : Int)
    (key : String) (h : key ≠ "count") :
    (update_alert_counter st env i).1 key = st key := by
  simp only [update_alert_counter]
  cases hc : pyGtIntEnv ((st "count").getD 0 + i) env.retrainingThreshold with
  | error e => rfl
  | ok b => simp [h]

theorem runIncrements_counter (env : ServerEnv) :
    ∀ (incs : List Int) (st : FirebaseState),
      runIncrements st env incs "counter" = st "counter" := by
  intro incs
  induction incs with
  | nil => intro st; rfl
  | cons i rest ih =>
      intro st
      show runIncrements (increment_counter st env i).1 env rest "counter" = st "counter"
      rw [ih]
      exact update_alert_counter_frame st env i "counter" (by decide)

/-- C10: a call to `/increment_counter` leaves every Firebase child
other than `count` unchanged (the update writes only `count`, and in the
current code not even that, since the threshold comparison raises); the
value returned in the response is read from the distinct `counter`
child; and after any sequence of increment calls the returned value is
still the original `counter` value — unchanged by the increments. -/
theorem increment_counter_touches_only_count (st : FirebaseState) (env : ServerEnv)
    (inc : Int) :
    (∀ key, key ≠ "count" → (increment_counter st env inc).1 key = st key) ∧
    (increment_counter st env inc).2.2 = st "counter" ∧
    (∀ incs : List Int,
        (increment_counter (runIncrements st env incs) env inc).2.2 = st "counter") := by
  refine ⟨?_, ?_, ?_⟩
  · intro key h
    exact update_alert_counter_frame st env inc key h
  · show (update_alert_counter st env inc).1 "counter" = st "counter"
    exact update_alert_counter_frame st env inc "counter" (by decide)
  · intro incs
    show (update_alert_counter (runIncrements st env incs) env inc).1 "counter" = st "counter"
    rw [update_alert_counter_frame (runIncrements st env incs) env inc "counter" (by decide)]
    exact runIncrements_counter env incs st

/-- Evaluation of C10 at a concrete state, environment and increment
sequence. -/
theorem increment_counter_touches_only_count_witness :
    (increment_counter sampleFirebase sampleServerEnv 5).1 "other" = sampleFirebase "other" ∧
    (increment_counter sampleFirebase sampleServerEnv 5).2.2 = sampleFirebase "counter" ∧
    (increment_counter (runIncrements sampleFirebase sampleServerEnv [1, 2]) sampleServerEnv 5).2.2 =
      sampleFirebase "counter" := by
  have h := increment_counter_touches_only_count sampleFirebase sampleServerEnv 5
  exact ⟨h.1 "other" (by decide), h.2.1, h.2.2 [1, 2]⟩

/-! ## News scheduler lemmas -/

/-- A ticker whose dedup entry does not match the served article is
processed to the updated map and its fresh-ticker events, whatever the
scrape and upload outcomes. -/
theorem processTicker_fresh (env : NewsEnv) (m : DedupMap) (t : String)
    (a : Article) (rest : List Article)
    (hresp : env.newsResp t = Except.ok (a :: rest))
    (hfresh : dedupGet m t ≠ some a.id) :
    processTicker env m t = (dedupSet m t a.id, tickerFreshEvents env t) := by
  simp only [processTicker, tickerFreshEvents]
  rw [hresp]
  simp only [if_neg hfresh]
  cases hc : env.content a.article_url with
  | none => rfl
  | some c =>
      by_cases hce : c = ""
      · simp only [if_pos hce]
      · simp only [if_neg hce]
        cases hu : upload_to_gcs (articleData t a c)
            (newsFolderName t a.published) (newsFileName t a.published) with
        | ok obj => rfl
        | error e => rfl

/-- A ticker whose dedup entry equals the served article id is skipped:
no event, map unchanged. -/
theorem processTicker_duplicate (env : NewsEnv) (m : DedupMap) (t : String)
    (a : Article) (rest : List Article)
    (hresp : env.newsResp t = Except.ok (a :: rest))
    (hdup : dedupGet m t = some a.id) :
    processTicker env m t = (m, []) := by
  simp only [processTicker]
  rw [hresp]
  simp [hdup]

theorem dedupGet_insertIds_of_not_mem (env : NewsEnv) :
    ∀ (ts : List String) (m : DedupMap) (u : String), u ∉ ts →
      dedupGet (insertIds env m ts) u = dedupGet m u := by
  intro ts
  induction ts with
  | nil => intro m u _; rfl
  | cons t rest ih =>
      intro m u hu
      show dedupGet (insertIds env (dedupSet m t (envArticleId env t)) rest) u = dedupGet m u
      rw [ih _ u (fun h => hu (List.mem_cons_of_mem t h))]
      rw [dedupGet_dedupSet]
      have hut : u ≠ t := by
        intro h
        subst h
        exact hu (List.mem_cons_self u rest)
      rw [if_neg hut]

theorem insertIds_append (env : NewsEnv) (m : DedupMap) (l1 l2 : List String) :
    insertIds env m (l1 ++ l2) = insertIds env (insertIds env m l1) l2 := by
  simp [insertIds, List.foldl_append]

/-- A batch of pairwise distinct tickers, none yet in the dedup map and
each served a non-empty response, is processed to one fresh-ticker event
group per ticker, in order, with all served ids recorded. -/
theorem processBatch_fresh (env : NewsEnv) :
    ∀ (batch : List String) (m : DedupMap),
      (∀ t ∈ batch, FetchSucceeds env t) →
      batch.Nodup →
      (∀ t ∈ batch, dedupGet m t = Option.none) →
      processBatch env m batch =
        (insertIds env m batch, (batch.map (tickerFreshEvents env)).flatten) := by
  intro batch
  induction batch with
  | nil => intro m _ _ _; rfl
  | cons t ts ih =>
      intro m hsucc hnodup hfresh
      obtain ⟨a, arest, c, hresp, hcont, hcne⟩ := hsucc t (List.mem_cons_self t ts)
      have hTfresh : dedupGet m t = Option.none := hfresh t (List.mem_cons_self t ts)
      have hne : dedupGet m t ≠ some a.id := by rw [hTfresh]; simp
      have hpt := processTicker_fresh env m t a arest hresp hne
      have hid : envArticleId env t = a.id := by
        simp [envArticleId, hresp]
      have hrest : ∀ u ∈ ts, dedupGet (dedupSet m t a.id) u = Option.none := by
        intro u hu
        rw [dedupGet_dedupSet]
        have hut : u ≠ t := by
          intro h
          exact (List.nodup_cons.mp hnodup).1 (h ▸ hu)
        rw [if_neg hut]
        exact hfresh u (List.mem_cons_of_mem t hu)
      have hihr := ih (dedupSet m t a.id)
        (fun u hu => hsucc u (List.mem_cons_of_mem t hu))
        (List.nodup_cons.mp hnodup).2 hrest
      show (let r1 := processTicker env m t
            let r2 := processBatch env r1.1 ts
            (r2.1, r1.2 ++ r2.2)) =
        (insertIds env m (t :: ts), ((t :: ts).map (tickerFreshEvents env)).flatten)
      rw [hpt]
      simp only [hihr]
      rw [Prod.mk.injEq]
      refine ⟨?_, ?_⟩
      · rw [show insertIds env m (t :: ts) =
              insertIds env (dedupSet m t (envArticleId env t)) ts from rfl, hid]
      · simp

/-- The batch loop over pairwise distinct tickers, all fresh and all
served: each chunk of five contributes its per-ticker event groups
followed by the 60-second sleep. -/
theorem fetchLoop_fresh (env : NewsEnv) :
    ∀ (n : Nat) (ts : List String), ts.length ≤ n →
      (∀ t ∈ ts, FetchSucceeds env t) →
      ts.Nodup →
      ∀ (m : DedupMap), (∀ t ∈ ts, dedupGet m t = Option.none) →
        fetchLoop env m ts =
          (insertIds env m ts,
           ((chunks5 ts).map
              (fun b => (b.map (tickerFreshEvents env)).flatten ++ [NewsEvent.sleep 60])).flatten) := by
  intro n
  induction n with
  | zero =>
      intro ts hlen _ _ m _
      have : ts = [] := List.eq_nil_of_length_eq_zero (Nat.le_zero.mp hlen)
      subst this
      simp [fetchLoop, insertIds, chunks5]
  | succ n ih =>
      intro ts hlen hsucc hnodup m hfresh
      match ts with
      | [] => simp [fetchLoop, insertIds, chunks5]
      | t :: rest =>
          have hsplit : t :: rest = (t :: rest.take 4) ++ rest.drop 4 := by
            simp
          have hmem_batch : ∀ u ∈ t :: rest.take 4, u ∈ t :: rest := by
            intro u hu
            rw [hsplit]
            exact List.mem_append_left _ hu
          have hmem_rest : ∀ u ∈ rest.drop 4, u ∈ t :: rest := by
            intro u hu
            rw [hsplit]
            exact List.mem_append_right _ hu
          have hnodup_app : ((t :: rest.take 4) ++ rest.drop 4).Nodup := by
            rw [← hsplit]; exact hnodup
          have hnodup_batch : (t :: rest.take 4).Nodup :=
            (List.nodup_append.mp hnodup_app).1
          have hnodup_rest : (rest.drop 4).Nodup :=
            (List.nodup_append.mp hnodup_app).2.1
          have hdisj := (List.nodup_append.mp hnodup_app).2.2
          have hbatch := processBatch_fresh env (t :: rest.take 4) m
            (fun u hu => hsucc u (hmem_batch u hu))
            hnodup_batch
            (fun u hu => hfresh u (hmem_batch u hu))
          have hfresh_rest : ∀ u ∈ rest.drop 4,
              dedupGet (insertIds env m (t :: rest.take 4)) u = Option.none := by
            intro u hu
            rw [dedupGet_insertIds_of_not_mem env (t :: rest.take 4) m u
                  (fun hmem => hdisj hmem hu)]
            exact hfresh u (hmem_rest u hu)
          have hlen_rest : (rest.drop 4).length ≤ n := by
            simp only [List.length_drop]
            have : rest.length + 1 ≤ n + 1 := by
              simpa using hlen
            omega
          have hrec := ih (rest.drop 4) hlen_rest
            (fun u hu => hsucc u (hmem_rest u hu))
            hnodup_rest
            (insertIds env m (t :: rest.take 4))
            hfresh_rest
          rw [fetchLoop.eq_def]
          simp only [hbatch, hrec]
          rw [Prod.mk.injEq]
          refine ⟨?_, ?_⟩
          · rw [hsplit, insertIds_append]
          · rw [show chunks5 (t :: rest) = (t :: rest.take 4) :: chunks5 (rest.drop 4) from by
                rw [chunks5.eq_def]]
            simp

/-! ## C7: batch cadence of the news scheduler -/

/-- C7: with the deduplication gate empty and every ticker of the module
list served a fresh article whose page scrapes to non-empty text (so
that the `if content:` guard passes), the scheduler's trace is exactly:
for each batch carved from the ticker list, the per-ticker event groups
of its five tickers (each containing one upload) followed by the
60-second suspension; the module list yields three batches of five; and
each `__main__` cycle appends the 24-hour suspension before the next
full pass starts from the top. -/
theorem scheduler_batch_cadence (env : NewsEnv)
    (hsucc : ∀ t ∈ newsTickers, FetchSucceeds env t) :
    (fetch_and_store_news env []).2 =
      ((chunks5 newsTickers).map
          (fun b => (b.map (tickerFreshEvents env)).flatten ++ [NewsEvent.sleep 60])).flatten ∧
    chunks5 newsTickers =
      [["AAPL", "MSFT", "GOOGL", "AMZN", "TSLA"],
       ["META", "NVDA", "BRK.B", "V", "JNJ"],
       ["WMT", "JPM", "PG", "MA", "UNH"]] ∧
    (∀ t ∈ newsTickers, ∃ a arest c obj,
        env.newsResp t = Except.ok (a :: arest) ∧
        env.content a.article_url = Option.some c ∧
        tickerFreshEvents env t =
          [NewsEvent.dedupUpdate t a.id, NewsEvent.contentFetch a.article_url,
           NewsEvent.upload obj]) ∧
    (mainCycle env []).2 = (fetch_and_store_news env []).2 ++ [NewsEvent.sleep 86400] ∧
    (∀ n, (runCycles env [] (n + 1)).2 =
        (mainCycle env []).2 ++ (runCycles env (mainCycle env []).1 n).2) := by
  have hloop := fetchLoop_fresh env newsTickers.length newsTickers le_rfl hsucc
    (by decide) [] (fun t _ => rfl)
  refine ⟨?_, ?_, ?_, rfl, fun n => rfl⟩
  · show (fetchLoop env [] newsTickers).2 = _
    rw [hloop]
  · rw [newsTickers, chunks5.eq_def]
    norm_num
    rw [chunks5.eq_def]
    norm_num
    rw [chunks5.eq_def]
    norm_num
    rw [chunks5.eq_def]
  · intro t ht
    obtain ⟨a, arest, c, hresp, hcont, hcne⟩ := hsucc t ht
    obtain ⟨obj, hobj⟩ : ∃ obj, upload_to_gcs (articleData t a c)
        (newsFolderName t a.published) (newsFileName t a.published) = Except.ok obj :=
      ⟨_, rfl⟩
    refine ⟨a, arest, c, obj, hresp, hcont, ?_⟩
    simp only [tickerFreshEvents]
    simp only [hresp, hcont]
    rw [if_neg hcne]
    simp only [hobj]

/-- Evaluation of the C7 cadence under a concrete all-success
environment, starting from the empty deduplication map. -/
theorem scheduler_batch_cadence_witness :
    (fetch_and_store_news successEnv []).2 =
      ((chunks5 newsTickers).map
          (fun b => (b.map (tickerFreshEvents successEnv)).flatten ++ [NewsEvent.sleep 60])).flatten ∧
    (mainCycle successEnv []).2 =
      (fetch_and_store_news successEnv []).2 ++ [NewsEvent.sleep 86400] := by
  have h := scheduler_batch_cadence successEnv
    (fun t _ => ⟨sampleArticle t, [], "Body text", rfl, rfl, by decide⟩)
  exact ⟨h.1, h.2.2.2.1⟩

/-! ## C9: the dedup update precedes the content fetch and the write -/

/-- C9: when the served article is new, the dedup map entry is written
first — the trace opens with the state update, then the content fetch,
then any upload; when the content scrape fails, no upload happens but
the state change stands (the stored id is the served article id); and
reprocessing the same ticker against the same article is classified a
duplicate: no event at all, map unchanged — the article is never
written for the rest of the run. -/
theorem dedup_update_precedes_fetch_and_write (env : NewsEnv) (m : DedupMap)
    (t : String) (a : Article) (arest : List Article)
    (hresp : env.newsResp t = Except.ok (a :: arest))
    (hnew : dedupGet m t ≠ some a.id) :
    (processTicker env m t).1 = dedupSet m t a.id ∧
    dedupGet (processTicker env m t).1 t = some a.id ∧
    (∃ tail, (processTicker env m t).2 =
        NewsEvent.dedupUpdate t a.id :: NewsEvent.contentFetch a.article_url :: tail) ∧
    (env.content a.article_url = Option.none →
        (processTicker env m t).2 =
          [NewsEvent.dedupUpdate t a.id, NewsEvent.contentFetch a.article_url] ∧
        ∀ obj, NewsEvent.upload obj ∉ (processTicker env m t).2) ∧
    processTicker env (dedupSet m t a.id) t = (dedupSet m t a.id, []) := by
  have hpt := processTicker_fresh env m t a arest hresp hnew
  have hself : dedupGet (dedupSet m t a.id) t = some a.id := by
    rw [dedupGet_dedupSet]; simp
  have hdup := processTicker_duplicate env (dedupSet m t a.id) t a arest hresp hself
  rw [hpt]
  refine ⟨rfl, hself, ?_, ?_, hdup⟩
  · show ∃ tail, tickerFreshEvents env t = _
    simp only [tickerFreshEvents]
    simp only [hresp]
    cases hc : env.content a.article_url with
    | none => exact ⟨[], by simp⟩
    | some c =>
        by_cases hce : c = ""
        · exact ⟨[], by simp [hce]⟩
        · cases hu : upload_to_gcs (articleData t a c)
              (newsFolderName t a.published) (newsFileName t a.published) with
          | ok obj => exact ⟨[NewsEvent.upload obj], by simp [hce, hu]⟩
          | error e => exact ⟨[], by simp [hce, hu]⟩
  · intro hc
    have hev : tickerFreshEvents env t =
        [NewsEvent.dedupUpdate t a.id, NewsEvent.contentFetch a.article_url] := by
      simp only [tickerFreshEvents]
      simp only [hresp, hc]
    constructor
    · exact hev
    · intro obj
      show NewsEvent.upload obj ∉ tickerFreshEvents env t
      rw [hev]
      simp

/-- Evaluation of C9 in a concrete environment whose content scrape
always fails, from the empty map: the id is recorded, nothing is
uploaded, and the second processing of the same ticker is a silent
duplicate. -/
theorem dedup_update_precedes_fetch_and_write_witness :
    (processTicker scrapeFailEnv [] "AAPL").2 =
      [NewsEvent.dedupUpdate "AAPL" (sampleArticle "AAPL").id,
       NewsEvent.contentFetch (sampleArticle "AAPL").article_url] ∧
    processTicker scrapeFailEnv (dedupSet [] "AAPL" (sampleArticle "AAPL").id) "AAPL" =
      (dedupSet [] "AAPL" (sampleArticle "AAPL").id, []) := by
  have h := dedup_update_precedes_fetch_and_write scrapeFailEnv [] "AAPL"
    (sampleArticle "AAPL") [] rfl (by decide)
  exact ⟨(h.2.2.2.1 rfl).1, h.2.2.2.2⟩

end FinRAG
